import Mathlib

/-!
Verification of the data-collection orchestrator of the soccer-prediction
repository.  The definitions below are a shallow embedding of
`src/data_collection/main.py` (class `DataCollector`) and of the CLI entry
point `main.py`.  DataFrames are modelled as a list of column names plus a
list of rows of optional string cells (a missing cell models pandas NaN).
-/

set_option autoImplicit false

namespace SoccerPrediction

/-- A cell of a pandas DataFrame; `none` models NaN / missing data. -/
abbrev Cell := Option String

abbrev Row := List Cell

/-- Shallow embedding of a pandas DataFrame: named columns and rows of cells. -/
structure DataFrame where
  cols : List String
  rows : List Row
  deriving DecidableEq, Repr

/-- `pd.DataFrame()`: no columns, no rows. -/
def DataFrame.empty : DataFrame := ⟨[], []⟩

/-- pandas `df.empty`: true when either axis has length zero. -/
def DataFrame.isEmpty (df : DataFrame) : Bool :=
  df.rows.isEmpty || df.cols.isEmpty

/-- Well-formedness: every row has one cell per column. -/
def DataFrame.WF (df : DataFrame) : Prop :=
  ∀ r ∈ df.rows, r.length = df.cols.length

/-- Index of the join key column `match_id` in a frame. -/
def keyIdx (df : DataFrame) : Nat := df.cols.indexOf "match_id"

/-- The `match_id` cell of one row of `df`. -/
def rowKey (df : DataFrame) (r : Row) : Cell := r.getD (keyIdx df) none

/-- The `match_id` column of a frame, as the list of its cells. -/
def matchIds (df : DataFrame) : List Cell := df.rows.map (rowKey df)

/-- Right-hand columns of `pd.merge(a, b, on=..., how=..., suffixes=...)` with
key `match_id` and suffix pair of empty string and `_dup`: the key column is
consumed by the join, and a right column name also present on the left is
suffixed with `_dup` instead of overwriting the left column. -/
def mergedRightCols (leftCols rightCols : List String) : List String :=
  rightCols.filterMap fun c =>
    if c = "match_id" then none
    else if c ∈ leftCols then some (c ++ "_dup") else some c

/-- Cells of a right-hand row without its `match_id` cell. -/
def dropKeyCells (rightCols : List String) (r : Row) : Row :=
  (rightCols.zip r).filterMap fun cv =>
    if cv.1 = "match_id" then none else some cv.2

/-- A row of `n` NaN cells except for the key cell `v` at position `i`:
the left-hand part of an outer-join row whose key occurs only on the right. -/
def nullRow (n i : Nat) (v : Cell) : Row :=
  List.replicate i none ++ v :: List.replicate (n - i - 1) none

/-- Rows of `b` whose key matches the key of the given row of `a`. -/
def matchingRows (a b : DataFrame) (lr : Row) : List Row :=
  b.rows.filter fun rr => rowKey b rr == rowKey a lr

/-- Outer-join rows generated from the left frame: each left row joined with
every matching right row, or padded with NaN when no right row matches. -/
def mergedLeftRows (a b : DataFrame) : List Row :=
  a.rows.flatMap fun lr =>
    if (matchingRows a b lr).isEmpty then
      [lr ++ List.replicate (mergedRightCols a.cols b.cols).length none]
    else
      (matchingRows a b lr).map fun rr => lr ++ dropKeyCells b.cols rr

/-- Rows of `b` whose key matches no row of `a`. -/
def unmatchedRightRows (a b : DataFrame) : List Row :=
  b.rows.filter fun rr => a.rows.all fun lr => !(rowKey a lr == rowKey b rr)

/-- Outer-join rows generated from right-only keys: left columns are NaN
except for the key, which is placed in the left key column. -/
def mergedRightRows (a b : DataFrame) : List Row :=
  (unmatchedRightRows a b).map fun rr =>
    nullRow a.cols.length (keyIdx a) (rowKey b rr) ++ dropKeyCells b.cols rr

/-- `pd.merge(a, b, on="match_id", how="outer", suffixes=("", "_dup"))`
as used in `DataCollector._combine_results`. -/
def mergeOuter (a b : DataFrame) : DataFrame :=
  ⟨a.cols ++ mergedRightCols a.cols b.cols,
   mergedLeftRows a b ++ mergedRightRows a b⟩

/-- One element of the list produced by
`asyncio.gather(*tasks, return_exceptions=True)`: either the DataFrame a
fetch task returned or the exception it raised, captured as a value. -/
inductive FetchResult where
  | data : DataFrame → FetchResult
  | exn : String → FetchResult
  deriving DecidableEq, Repr

/-- A gathered outcome that contributes no data to the merge: an empty
DataFrame or a captured exception. -/
def FetchResult.degenerate : FetchResult → Bool
  | .data df => df.isEmpty
  | .exn _ => true

/-- The filter of `_combine_results`: keep a result only when it is a
DataFrame and not empty. -/
def isValidResult : FetchResult → Option DataFrame
  | .data df => if df.isEmpty then none else some df
  | .exn _ => none

def validResults (results : List FetchResult) : List DataFrame :=
  results.filterMap isValidResult

/-- The error messages `_combine_results` logs, one per captured exception. -/
def combineErrorLog (results : List FetchResult) : List String :=
  results.filterMap fun r =>
    match r with
    | .exn e => some ("Data collection error: " ++ e)
    | .data _ => none

/-- The body of the merge loop of `_combine_results`: merge on `match_id`
when both frames have that column, otherwise keep the accumulator. -/
def mergeStep (combined df : DataFrame) : DataFrame :=
  if "match_id" ∈ df.cols ∧ "match_id" ∈ combined.cols then mergeOuter combined df
  else combined

/-- Fold of the merge loop over the valid results, starting from the first. -/
def combineValid : List DataFrame → DataFrame
  | [] => DataFrame.empty
  | base :: rest => rest.foldl mergeStep base

/-- `DataCollector._combine_results`: the combined DataFrame together with
the error messages logged while filtering. -/
def combineResults (results : List FetchResult) : DataFrame × List String :=
  if results.isEmpty then (DataFrame.empty, [])
  else (combineValid (validResults results), combineErrorLog results)

/-- Python `str.replace` restricted to a one-character pattern, as in
`season.replace("-", "_")`. -/
def pyReplaceChar (s : String) (c d : Char) : String :=
  String.mk (s.data.map fun x => if x = c then d else x)

def csvPath (league season : String) : String :=
  "data/raw/" ++ league ++ "_" ++ pyReplaceChar season '-' '_' ++ ".csv"

def parquetPath (league season : String) : String :=
  "data/raw/" ++ league ++ "_" ++ pyReplaceChar season '-' '_' ++ ".parquet"

/-- `DataCollector._save_data`.  `fsFail` is the filesystem oracle: it tells
for each path whether writing it raises an OSError (disk full, permission).
The python code wraps no write in a try block, so a raised error escapes the
method; success returns the written files and the logged messages. -/
def saveData (fsFail : String → Bool) (data : DataFrame) (league season : String) :
    Except String (List (String × DataFrame) × List String) :=
  if data.isEmpty then .ok ([], ["No data to save"])
  else if fsFail (csvPath league season) then
    .error ("OSError: " ++ csvPath league season)
  else if fsFail (parquetPath league season) then
    .error ("OSError: " ++ parquetPath league season)
  else
    .ok ([(csvPath league season, data), (parquetPath league season, data)],
         ["Saved data to " ++ csvPath league season,
          "Saved data to " ++ parquetPath league season])

/-- `DataCollector.collect_league_data`, from the point where the gathered
per-source outcomes are in hand: combine them, save, and return the combined
frame.  An exception raised by the unguarded save escapes to the caller. -/
def collectLeagueData (fsFail : String → Bool) (results : List FetchResult)
    (league season : String) : Except String DataFrame :=
  let combined := (combineResults results).1
  match saveData fsFail combined league season with
  | .ok _ => .ok combined
  | .error e => .error e

/-- `DataCollector._collect_matches_football_data`: the wrapper around the
authenticated client call.  `clientFetch` is the outcome of
`client.get_matches`; an exception is caught, logged and turned into an
empty DataFrame. -/
def collectMatchesFootballData (hasClient : Bool)
    (clientFetch : Except String DataFrame) : DataFrame × List String :=
  if hasClient then
    (match clientFetch with
     | .ok ms => (ms, ["Collected matches from football-data.org"])
     | .error e => (DataFrame.empty, ["Error collecting from football-data.org: " ++ e]))
  else (DataFrame.empty, [])

/-- A parsed YAML document as `yaml.safe_load` returns it: `null` for an
empty document, a scalar string, or a mapping. -/
inductive YamlVal where
  | null
  | str : String → YamlVal
  | map : List (String × YamlVal) → YamlVal

/-- Python truthiness of a YAML value, as in `if api_key:`. -/
def YamlVal.truthy : YamlVal → Bool
  | .null => false
  | .str s => !(s == "")
  | .map es => !es.isEmpty

/-- Python `receiver.get(key, default)`: defined on dicts only; on `None`
or a string it raises an AttributeError. -/
def YamlVal.get : YamlVal → String → YamlVal → Except String YamlVal
  | .map es, k, dflt => .ok ((es.lookup k).getD dflt)
  | .null, _, _ => .error "AttributeError: NoneType object has no attribute get"
  | .str _, _, _ => .error "AttributeError: str object has no attribute get"

/-- Reading the config file: `none` models a missing file, `some v` a file
whose content parses to `v`. -/
def openRead (file : Option YamlVal) : Except String YamlVal :=
  match file with
  | none => .error "FileNotFoundError"
  | some v => .ok v

/-- `DataCollector._load_config`: return the parsed document, or an empty
mapping with a logged warning when the file is missing. -/
def loadConfig (file : Option YamlVal) : YamlVal × List String :=
  match openRead file with
  | .ok v => (v, [])
  | .error _ => (.map [], ["Config file config.yaml not found, using defaults"])

/-- The lookup chain of `_initialize_clients`:
`config.get("data_sources", {}).get("football_data_org", {}).get("api_key")`. -/
def getApiKey (config : YamlVal) : Except String YamlVal := do
  let ds ← config.get "data_sources" (.map [])
  let fdo ← ds.get "football_data_org" (.map [])
  fdo.get "api_key" .null

/-- `DataCollector._initialize_clients`: the keys of the client registry,
in insertion order.  The authenticated client is registered only when the
api key is truthy; the free client is always registered. -/
def initClients (config : YamlVal) : Except String (List String) :=
  (getApiKey config).map fun apiKey =>
    (if apiKey.truthy then ["football_data"] else []) ++ ["free_data"]

/-- `DataCollector.__init__`: load the config, then build the client
registry.  An AttributeError raised while reading the config propagates. -/
def newDataCollector (file : Option YamlVal) : Except String (YamlVal × List String) :=
  (initClients (loadConfig file).1).map fun clients => ((loadConfig file).1, clients)

/-- The fetch tasks `collect_league_data` creates before gathering. -/
inductive FetchTask where
  | footballData
  | freeData
  deriving DecidableEq, Repr

/-- Task construction in `collect_league_data`: a football-data task only
when that client is in the registry, then always the free-data task. -/
def buildTasks (clients : List String) : List FetchTask :=
  (if "football_data" ∈ clients then [.footballData] else []) ++ [.freeData]

/-- The method names defined on class `DataCollector` in
`src/data_collection/main.py`. -/
def dataCollectorMethods : List String :=
  ["__init__", "_load_config", "_initialize_clients", "collect_league_data",
   "_collect_matches_football_data", "_collect_free_data", "_combine_results",
   "_save_data"]

/-- `collect_data` of the CLI entry point `main.py`: construct the
collector, then call `collector.collect_matches(...)`.  An attribute lookup
on a method name the class does not define raises an AttributeError, which
the surrounding handler turns into a `False` return. -/
def collectData (file : Option YamlVal) : Bool × List String :=
  match newDataCollector file with
  | .error e => (false, ["Error collecting data: " ++ e])
  | .ok _ =>
    if "collect_matches" ∈ dataCollectorMethods then (true, [])
    else (false,
      ["Error collecting data: AttributeError: DataCollector object has no attribute collect_matches"])

/-- The exit code of `main.py` for a given subcommand: 0 when the handler
returns `True`, 1 when it returns `False` or the command is unknown. -/
def cliExitCode (command : String) (file : Option YamlVal) : Nat :=
  if command = "collect" then (if (collectData file).1 then 0 else 1)
  else if command = "train" then 0
  else if command = "predict" then 0
  else if command = "status" then 0
  else 1

/-! Concrete frames used by the witnesses. -/

/-- One match row as the authenticated source would return it. -/
def dfMatches : DataFrame :=
  ⟨["match_id", "home_team", "away_team", "home_score", "away_score"],
   [[some "m1", some "A", some "B", some "2", some "1"]]⟩

/-- A second keyed source result sharing the non-key column `home_team`. -/
def dfRival : DataFrame :=
  ⟨["match_id", "home_team"], [[some "m2", some "X"]]⟩

/-- A non-empty result without a `match_id` column. -/
def dfOddsNoKey : DataFrame :=
  ⟨["odds_home"], [[some "1.8"]]⟩

instance (df : DataFrame) : Decidable df.WF := by
  unfold DataFrame.WF
  infer_instance

/-! Helper lemmas. -/

lemma isValidResult_eq_none {r : FetchResult} (h : r.degenerate = true) :
    isValidResult r = none := by
  cases r with
  | data df =>
    have hdf : df.isEmpty = true := h
    simp [isValidResult, hdf]
  | exn e => rfl

lemma validResults_eq_nil {l : List FetchResult}
    (h : ∀ r ∈ l, r.degenerate = true) : validResults l = [] := by
  induction l with
  | nil => rfl
  | cons r rest ih =>
    have hr := isValidResult_eq_none (h r (List.mem_cons_self r rest))
    have hrest := ih fun x hx => h x (List.mem_cons_of_mem r hx)
    simp only [validResults, List.filterMap_cons, hr] at hrest ⊢
    exact hrest

lemma filterMap_set_none {α β : Type} (f : α → Option β) (l : List α) (i : Nat)
    (a b : α) (ha : l[i]? = some a) (hfa : f a = none) (hfb : f b = none) :
    (l.set i b).filterMap f = l.filterMap f := by
  induction l generalizing i with
  | nil => simp at ha
  | cons x xs ih =>
    cases i with
    | zero =>
      simp only [List.getElem?_cons_zero, Option.some.injEq] at ha
      subst ha
      simp [List.filterMap_cons, hfa, hfb]
    | succ n =>
      simp only [List.getElem?_cons_succ] at ha
      simp [List.filterMap_cons, ih n ha]

lemma mem_combineErrorLog {results : List FetchResult} {i : Nat} {e : String}
    (h : results[i]? = some (FetchResult.exn e)) :
    ("Data collection error: " ++ e) ∈ combineErrorLog results := by
  have hmem : FetchResult.exn e ∈ results := List.getElem?_mem h
  exact List.mem_filterMap.2 ⟨FetchResult.exn e, hmem, rfl⟩

lemma isEmpty_false_of_getElem? {results : List FetchResult} {i : Nat}
    {r : FetchResult} (h : results[i]? = some r) : results.isEmpty = false := by
  cases results with
  | nil => simp at h
  | cons x xs => rfl

/-! The claim theorems. -/

/-- Claim C8: when the configuration file path does not refer to an
existing file, the config loader logs a warning and returns an empty
mapping; it raises nothing (the Lean embedding is a total function into a
plain pair, mirroring the caught FileNotFoundError of the source). -/
theorem missing_config_file_returns_empty_mapping :
    loadConfig none =
      (YamlVal.map [], ["Config file config.yaml not found, using defaults"]) := rfl

/-- Claim C10: a config file whose content parses to a null document makes
the loader return null rather than an empty mapping, and constructing the
collector then fails with an AttributeError raised while looking up keys on
the null config; a missing file, or a file parsing to a mapping, lets
construction succeed. -/
theorem null_config_breaks_construction :
    (loadConfig (some YamlVal.null)).1 = YamlVal.null ∧
    (loadConfig (some YamlVal.null)).1 ≠ YamlVal.map [] ∧
    newDataCollector (some YamlVal.null) =
      .error "AttributeError: NoneType object has no attribute get" ∧
    (newDataCollector none).isOk = true ∧
    (newDataCollector (some (YamlVal.map []))).isOk = true :=
  ⟨rfl, fun h => YamlVal.noConfusion h, rfl, rfl, rfl⟩

/-- Claim C6: when two non-empty results are merged and at least one of
them lacks a `match_id` column, the later result is dropped: the combined
output is the accumulated base unchanged. -/
theorem merge_without_key_keeps_base (a b : DataFrame)
    (ha : a.isEmpty = false) (hb : b.isEmpty = false)
    (h : "match_id" ∉ a.cols ∨ "match_id" ∉ b.cols) :
    (combineResults [FetchResult.data a, FetchResult.data b]).1 = a := by
  have hvalid : validResults [FetchResult.data a, FetchResult.data b] = [a, b] := by
    simp [validResults, isValidResult, ha, hb]
  have hcond : ¬("match_id" ∈ b.cols ∧ "match_id" ∈ a.cols) := by
    rcases h with h | h
    · exact fun hc => h hc.2
    · exact fun hc => h hc.1
  simp [combineResults, hvalid, combineValid, mergeStep, hcond]

/-- Witness for C6 at concrete frames: the keyed base survives, the
unkeyed odds frame is dropped. -/
theorem merge_without_key_keeps_base_witness :
    (combineResults [FetchResult.data dfMatches, FetchResult.data dfOddsNoKey]).1 =
      dfMatches :=
  merge_without_key_keeps_base dfMatches dfOddsNoKey (by decide) (by decide)
    (Or.inr (by decide))

/-- Claim C3: when exactly one gathered result is non-empty and every other
is an empty frame or a captured exception, the combined output is that one
result unchanged. -/
theorem combine_single_nonempty (pre post : List FetchResult) (df : DataFrame)
    (hdf : df.isEmpty = false)
    (hpre : ∀ r ∈ pre, r.degenerate = true)
    (hpost : ∀ r ∈ post, r.degenerate = true) :
    (combineResults (pre ++ FetchResult.data df :: post)).1 = df := by
  have h1 : validResults pre = [] := validResults_eq_nil hpre
  have h2 : validResults post = [] := validResults_eq_nil hpost
  have hvalid : validResults (pre ++ FetchResult.data df :: post) = [df] := by
    unfold validResults at h1 h2 ⊢
    rw [List.filterMap_append, List.filterMap_cons, h1, h2]
    simp [isValidResult, hdf]
  have hne : (pre ++ FetchResult.data df :: post).isEmpty = false := by
    cases pre <;> rfl
  simp [combineResults, hne, hvalid, combineValid]

/-- Witness for C3: an exception before and an empty frame after leave the
one non-empty frame untouched. -/
theorem combine_single_nonempty_witness :
    (combineResults [FetchResult.exn "boom", FetchResult.data dfMatches,
      FetchResult.data DataFrame.empty]).1 = dfMatches :=
  combine_single_nonempty [FetchResult.exn "boom"]
    [FetchResult.data DataFrame.empty] dfMatches (by decide) (by decide) (by decide)

/-- Claim C9: when every gathered result is an empty frame or a captured
exception, the combined output is the empty frame and the save step writes
no file, logging the no-data warning instead. -/
theorem all_degenerate_no_save (results : List FetchResult)
    (fsFail : String → Bool) (league season : String)
    (h : ∀ r ∈ results, r.degenerate = true) :
    (combineResults results).1 = DataFrame.empty ∧
    saveData fsFail (combineResults results).1 league season =
      .ok ([], ["No data to save"]) := by
  have hvalid : validResults results = [] := validResults_eq_nil h
  have h1 : (combineResults results).1 = DataFrame.empty := by
    by_cases he : results.isEmpty = true
    · simp [combineResults, he]
    · simp [combineResults, he, hvalid, combineValid]
  refine ⟨h1, ?_⟩
  rw [h1]
  rfl

/-- Witness for C9 at a concrete degenerate result list. -/
theorem all_degenerate_no_save_witness :
    (combineResults [FetchResult.exn "net down",
      FetchResult.data DataFrame.empty]).1 = DataFrame.empty ∧
    saveData (fun _ => true)
      (combineResults [FetchResult.exn "net down",
        FetchResult.data DataFrame.empty]).1 "PL" "2023-2024" =
      .ok ([], ["No data to save"]) :=
  all_degenerate_no_save [FetchResult.exn "net down",
    FetchResult.data DataFrame.empty] (fun _ => true) "PL" "2023-2024" (by decide)

/-- Claim C7: when the lookup chain for the api key yields null, the
authenticated client is not registered and no fetch task is created for it;
only the free-data task exists. -/
theorem missing_api_key_no_auth_client (config : YamlVal)
    (h : getApiKey config = .ok YamlVal.null) :
    initClients config = .ok ["free_data"] ∧
    "football_data" ∉ ["free_data"] ∧
    buildTasks ["free_data"] = [FetchTask.freeData] := by
  refine ⟨?_, by decide, by decide⟩
  simp [initClients, h, Except.map, YamlVal.truthy]

/-- Witness for C7: the empty-mapping config has no api key. -/
theorem missing_api_key_no_auth_client_witness :
    initClients (YamlVal.map []) = .ok ["free_data"] ∧
    "football_data" ∉ ["free_data"] ∧
    buildTasks ["free_data"] = [FetchTask.freeData] :=
  missing_api_key_no_auth_client (YamlVal.map []) rfl

/-- Claim C5, against the code: the CLI collect handler calls
`collector.collect_matches`, a method the orchestrator class does not
define, so the AttributeError is caught, the handler returns False, and the
collect subcommand exits with code 1 for every configuration; the success
path (report count, exit 0) is unreachable. -/
theorem cli_collect_always_exits_one (file : Option YamlVal) :
    (collectData file).1 = false ∧ cliExitCode "collect" file = 1 := by
  have hnm : "collect_matches" ∉ dataCollectorMethods := by decide
  have h : (collectData file).1 = false := by
    cases hnd : newDataCollector file with
    | error e => simp [collectData, hnd]
    | ok v => simp [collectData, hnd, hnm]
  refine ⟨h, ?_⟩
  simp [cliExitCode, h]

/-- Claim C4 counterexample: with a filesystem on which every write raises,
collecting one non-empty result makes `collect_league_data` end in the
propagated OSError; the merged collection is not returned to the caller,
refuting the claim that a persistence failure does not re-raise. -/
theorem persistence_failure_escapes_collect :
    collectLeagueData (fun _ => true) [FetchResult.data dfMatches]
      "PL" "2023-2024" = .error "OSError: data/raw/PL_2023_2024.csv" := rfl

/-- Claim C4 as amended: `collect_league_data` returns the merged
collection unchanged whenever the save step succeeds, and a failure while
writing either sink file propagates the error to the caller instead. -/
theorem collect_returns_iff_save_succeeds (fsFail : String → Bool)
    (results : List FetchResult) (league season : String) :
    (∀ out, saveData fsFail (combineResults results).1 league season = .ok out →
      collectLeagueData fsFail results league season =
        .ok (combineResults results).1) ∧
    (∀ e, saveData fsFail (combineResults results).1 league season = .error e →
      collectLeagueData fsFail results league season = .error e) := by
  constructor
  · intro out h
    simp [collectLeagueData, h]
  · intro e h
    simp [collectLeagueData, h]

/-- Witness for the amended C4: with a healthy filesystem the merged
collection comes back to the caller. -/
theorem collect_returns_iff_save_succeeds_witness :
    collectLeagueData (fun _ => false) [FetchResult.data dfMatches]
      "PL" "2023-2024" = .ok (combineResults [FetchResult.data dfMatches]).1 :=
  (collect_returns_iff_save_succeeds (fun _ => false)
    [FetchResult.data dfMatches] "PL" "2023-2024").1
    ([("data/raw/PL_2023_2024.csv", dfMatches),
      ("data/raw/PL_2023_2024.parquet", dfMatches)],
     ["Saved data to data/raw/PL_2023_2024.csv",
      "Saved data to data/raw/PL_2023_2024.parquet"])
    rfl

/-- Claim C1: a captured exception among the gathered outcomes is logged
and counts as zero data: combining with the exception replaced by an empty
frame yields the same merged output, the error message is in the log, and
the per-source wrapper turns a raised client error into an empty frame with
a logged error rather than propagating it. -/
theorem exception_isolated_in_combine (results : List FetchResult) (i : Nat)
    (e : String) (h : results[i]? = some (FetchResult.exn e)) :
    (combineResults (results.set i (FetchResult.data DataFrame.empty))).1 =
      (combineResults results).1 ∧
    ("Data collection error: " ++ e) ∈ (combineResults results).2 ∧
    collectMatchesFootballData true (.error e) =
      (DataFrame.empty, ["Error collecting from football-data.org: " ++ e]) := by
  have hne : results.isEmpty = false := isEmpty_false_of_getElem? h
  have hne2 : (results.set i (FetchResult.data DataFrame.empty)).isEmpty = false := by
    cases results with
    | nil => simp at h
    | cons x xs => cases i <;> rfl
  have hv : validResults (results.set i (FetchResult.data DataFrame.empty)) =
      validResults results :=
    filterMap_set_none isValidResult results i _ _ h rfl rfl
  refine ⟨?_, ?_, rfl⟩
  · simp [combineResults, hne, hne2, hv]
  · simp only [combineResults, hne, Bool.false_eq_true, if_false]
    exact mem_combineErrorLog h

/-- Witness for C1: a network error next to a real result is absorbed. -/
theorem exception_isolated_in_combine_witness :
    (combineResults ([FetchResult.exn "boom", FetchResult.data dfMatches].set 0
      (FetchResult.data DataFrame.empty))).1 =
      (combineResults [FetchResult.exn "boom", FetchResult.data dfMatches]).1 ∧
    ("Data collection error: " ++ "boom") ∈
      (combineResults [FetchResult.exn "boom", FetchResult.data dfMatches]).2 ∧
    collectMatchesFootballData true (.error "boom") =
      (DataFrame.empty, ["Error collecting from football-data.org: " ++ "boom"]) :=
  exception_isolated_in_combine [FetchResult.exn "boom", FetchResult.data dfMatches]
    0 "boom" rfl

/-! Lemmas on the outer join, leading to claim C2. -/

lemma keyIdx_lt_length {df : DataFrame} (h : "match_id" ∈ df.cols) :
    keyIdx df < df.cols.length :=
  List.indexOf_lt_length.2 h

lemma keyIdx_mergeOuter (a b : DataFrame) (h : "match_id" ∈ a.cols) :
    keyIdx (mergeOuter a b) = keyIdx a := by
  unfold keyIdx
  exact List.indexOf_append_of_mem h

lemma rowKey_append_left (a b : DataFrame) (hka : "match_id" ∈ a.cols)
    {lr : Row} (hlen : lr.length = a.cols.length) (tail : Row) :
    rowKey (mergeOuter a b) (lr ++ tail) = rowKey a lr := by
  unfold rowKey
  rw [keyIdx_mergeOuter a b hka]
  exact List.getD_append _ _ _ _ (by rw [hlen]; exact keyIdx_lt_length hka)

lemma length_nullRow {n i : Nat} (h : i < n) (v : Cell) :
    (nullRow n i v).length = n := by
  simp [nullRow]
  omega

lemma rowKey_nullRow_append (a b : DataFrame) (hka : "match_id" ∈ a.cols)
    (v : Cell) (tail : Row) :
    rowKey (mergeOuter a b) (nullRow a.cols.length (keyIdx a) v ++ tail) = v := by
  have hlt := keyIdx_lt_length hka
  unfold rowKey
  rw [keyIdx_mergeOuter a b hka]
  rw [List.getD_append _ _ _ _ (by rw [length_nullRow hlt]; exact hlt)]
  unfold nullRow
  rw [List.getD_append_right _ _ _ _ (by simp)]
  simp

lemma rowKey_mem_mergedLeftRows (a b : DataFrame) (hwa : a.WF)
    (hka : "match_id" ∈ a.cols) {row : Row}
    (h : row ∈ mergedLeftRows a b) :
    ∃ lr ∈ a.rows, rowKey (mergeOuter a b) row = rowKey a lr := by
  rcases List.mem_flatMap.1 h with ⟨lr, hlr, hrow⟩
  refine ⟨lr, hlr, ?_⟩
  by_cases hm : (matchingRows a b lr).isEmpty = true
  · rw [if_pos hm] at hrow
    simp only [List.mem_singleton] at hrow
    subst hrow
    exact rowKey_append_left a b hka (hwa lr hlr) _
  · rw [if_neg hm] at hrow
    rcases List.mem_map.1 hrow with ⟨rr, _, hrow⟩
    subst hrow
    exact rowKey_append_left a b hka (hwa lr hlr) _

lemma rowKey_mem_mergedRightRows (a b : DataFrame) (hka : "match_id" ∈ a.cols)
    {row : Row} (h : row ∈ mergedRightRows a b) :
    ∃ rr ∈ b.rows, rowKey (mergeOuter a b) row = rowKey b rr := by
  rcases List.mem_map.1 h with ⟨rr, hrr, hrow⟩
  refine ⟨rr, List.mem_of_mem_filter hrr, ?_⟩
  subst hrow
  exact rowKey_nullRow_append a b hka _ _

lemma exists_merged_row_of_left (a b : DataFrame) (hwa : a.WF)
    (hka : "match_id" ∈ a.cols) {lr : Row} (hlr : lr ∈ a.rows) :
    ∃ row ∈ mergedLeftRows a b, rowKey (mergeOuter a b) row = rowKey a lr := by
  by_cases hm : (matchingRows a b lr).isEmpty = true
  · refine ⟨lr ++ List.replicate (mergedRightCols a.cols b.cols).length none, ?_, ?_⟩
    · exact List.mem_flatMap.2
        ⟨lr, hlr, by rw [if_pos hm]; exact List.mem_singleton.2 rfl⟩
    · exact rowKey_append_left a b hka (hwa lr hlr) _
  · have hne : matchingRows a b lr ≠ [] := by
      simpa [List.isEmpty_iff] using hm
    rcases List.exists_mem_of_ne_nil _ hne with ⟨rr, hrr⟩
    refine ⟨lr ++ dropKeyCells b.cols rr, ?_, ?_⟩
    · exact List.mem_flatMap.2
        ⟨lr, hlr, by rw [if_neg hm]; exact List.mem_map.2 ⟨rr, hrr, rfl⟩⟩
    · exact rowKey_append_left a b hka (hwa lr hlr) _

lemma exists_merged_row_of_right (a b : DataFrame) (hwa : a.WF)
    (hka : "match_id" ∈ a.cols) {rr : Row} (hrr : rr ∈ b.rows) :
    ∃ row ∈ (mergeOuter a b).rows, rowKey (mergeOuter a b) row = rowKey b rr := by
  by_cases hmatch : ∃ lr ∈ a.rows, rowKey a lr = rowKey b rr
  · rcases hmatch with ⟨lr, hlr, heq⟩
    rcases exists_merged_row_of_left a b hwa hka hlr with ⟨row, hrow, hkey⟩
    exact ⟨row, List.mem_append_left _ hrow, by rw [hkey, heq]⟩
  · push_neg at hmatch
    have hfilter : rr ∈ unmatchedRightRows a b := by
      refine List.mem_filter.2 ⟨hrr, ?_⟩
      rw [List.all_eq_true]
      intro lr hlr
      simp only [Bool.not_eq_true', beq_eq_false_iff_ne, ne_eq]
      exact hmatch lr hlr
    refine ⟨nullRow a.cols.length (keyIdx a) (rowKey b rr) ++ dropKeyCells b.cols rr,
      ?_, ?_⟩
    · exact List.mem_append_right _ (List.mem_map.2 ⟨rr, hfilter, rfl⟩)
    · exact rowKey_nullRow_append a b hka _ _

lemma matchIds_mergeOuter_iff (a b : DataFrame) (hwa : a.WF)
    (hka : "match_id" ∈ a.cols) (k : Cell) :
    k ∈ matchIds (mergeOuter a b) ↔ k ∈ matchIds a ∨ k ∈ matchIds b := by
  constructor
  · intro hk
    rcases List.mem_map.1 hk with ⟨row, hrow, hkey⟩
    rcases List.mem_append.1 hrow with h | h
    · rcases rowKey_mem_mergedLeftRows a b hwa hka h with ⟨lr, hlr, heq⟩
      exact Or.inl (List.mem_map.2 ⟨lr, hlr, by rw [← heq]; exact hkey⟩)
    · rcases rowKey_mem_mergedRightRows a b hka h with ⟨rr, hrr, heq⟩
      exact Or.inr (List.mem_map.2 ⟨rr, hrr, by rw [← heq]; exact hkey⟩)
  · intro hk
    rcases hk with hk | hk
    · rcases List.mem_map.1 hk with ⟨lr, hlr, hkey⟩
      rcases exists_merged_row_of_left a b hwa hka hlr with ⟨row, hrow, heq⟩
      exact List.mem_map.2 ⟨row, List.mem_append_left _ hrow, by rw [heq, hkey]⟩
    · rcases List.mem_map.1 hk with ⟨rr, hrr, hkey⟩
      rcases exists_merged_row_of_right a b hwa hka hrr with ⟨row, hrow, heq⟩
      exact List.mem_map.2 ⟨row, hrow, by rw [heq, hkey]⟩

lemma dup_col_mem_mergeOuter (a b : DataFrame) {c : String}
    (hca : c ∈ a.cols) (hcb : c ∈ b.cols) (hne : c ≠ "match_id") :
    (c ++ "_dup") ∈ (mergeOuter a b).cols := by
  refine List.mem_append_right _ ?_
  refine List.mem_filterMap.2 ⟨c, hcb, ?_⟩
  rw [if_neg hne, if_pos hca]

/-- Claim C2: combining two well-formed non-empty keyed results performs
the full outer join on `match_id`: the merged frame is the outer join, its
match ids are exactly the union of the inputs, every left column survives,
and every non-key column present in both sides also appears with the
`_dup` suffix instead of being overwritten. -/
theorem combine_two_keyed_outer_join (a b : DataFrame) (hwa : a.WF) (hwb : b.WF)
    (hna : a.isEmpty = false) (hnb : b.isEmpty = false)
    (hka : "match_id" ∈ a.cols) (hkb : "match_id" ∈ b.cols) :
    (combineResults [FetchResult.data a, FetchResult.data b]).1 = mergeOuter a b ∧
    (∀ k, k ∈ matchIds (mergeOuter a b) ↔ k ∈ matchIds a ∨ k ∈ matchIds b) ∧
    (∀ c ∈ a.cols, c ∈ (mergeOuter a b).cols) ∧
    (∀ c, c ∈ a.cols → c ∈ b.cols → c ≠ "match_id" →
      (c ++ "_dup") ∈ (mergeOuter a b).cols) := by
  refine ⟨?_, fun k => matchIds_mergeOuter_iff a b hwa hka k, ?_, ?_⟩
  · have hvalid : validResults [FetchResult.data a, FetchResult.data b] = [a, b] := by
      simp [validResults, isValidResult, hna, hnb]
    simp [combineResults, hvalid, combineValid, mergeStep, hka, hkb]
  · intro c hc
    exact List.mem_append_left _ hc
  · intro c hca hcb hne
    exact dup_col_mem_mergeOuter a b hca hcb hne

/-- Witness for C2: the one-row frames share the non-key column
`home_team` and have distinct keys; both keys and the suffixed column are
in the merged frame. -/
theorem combine_two_keyed_outer_join_witness :
    (combineResults [FetchResult.data dfMatches, FetchResult.data dfRival]).1 =
      mergeOuter dfMatches dfRival ∧
    some "m2" ∈ matchIds (mergeOuter dfMatches dfRival) ∧
    ("home_team" ++ "_dup") ∈ (mergeOuter dfMatches dfRival).cols := by
  have h := combine_two_keyed_outer_join dfMatches dfRival (by decide) (by decide)
    (by decide) (by decide) (by decide) (by decide)
  exact ⟨h.1, (h.2.1 (some "m2")).2 (Or.inr (by decide)),
    h.2.2.2 "home_team" (by decide) (by decide) (by decide)⟩

end SoccerPrediction
